import Mathlib

/-!
Verification of the Perplexity App Connector Bridge gateway
(`app_connector_bridge.py`), a thin HTTP facade that validates
connector/tool invocations against a static registry, enriches the
caller arguments with fixed fields, and relays the call to a single
upstream MCP endpoint.

The embedding is shallow: Python dicts used as JSON argument bags become
functions `String → Option JVal`; the static `CONNECTORS` table is an
association list; the module-level configuration read by the handlers is
an explicit `GatewayState` threaded through every handler (the source
never assigns to any of these globals, so every handler returns the
state unchanged); an outbound `requests.post` becomes an entry in a
`calls` trace together with an oracle `upstream : Payload → UpstreamOutcome`
describing what the try-block observes; a raised `HTTPException` becomes
the `Except.error` branch of the result.
-/

set_option autoImplicit false

namespace Bridge

/-- JSON-compatible values carried in `arguments` / `context` bags and in
upstream response bodies. The gateway never inspects these values; they
pass through the merge unchanged. -/
inductive JVal where
  | null
  | bool (b : Bool)
  | num (n : Int)
  | str (s : String)
  | arr (xs : List JVal)
  | obj (fields : List (String × JVal))

/-- a Python dict with string keys, seen as its lookup function. -/
abbrev PyDict := String → Option JVal

/-- the empty dict `{}`. -/
def PyDict.empty : PyDict := fun _ => none

/-- models the Python dict construction `{**base, **extra}`: entries of
`extra` win over entries of `base` on key conflicts. -/
def dict_union (base extra : PyDict) : PyDict := fun k =>
  match extra k with
  | some v => some v
  | none => base k

/-- models adding the literal entry `key: v` after earlier entries of a
Python dict display: it overrides any earlier binding of `key`. -/
def dict_insert (d : PyDict) (key : String) (v : JVal) : PyDict := fun k =>
  if k = key then some v else d k

/-- pydantic model `ToolRequest` (source lines 51-54): `tool` is required,
`arguments` and `context` default to empty dicts. -/
structure ToolRequest where
  tool : String
  arguments : PyDict
  context : PyDict

/-- pydantic model `ConnectorResponse` (source lines 56-61). -/
structure ConnectorResponse where
  status : String
  tool : String
  result : JVal
  timestamp : String
  connector : String

/-- one entry of the static `CONNECTORS` table (source lines 64-180).
`caseSpecific` records whether the entry carries a truthy
`"case_specific"` key (only `legal_research` does; `case_management`
has a `"case_id"` key but no `"case_specific"` key, so
`connector.get("case_specific")` is falsy for it). `caseIdField` records
the optional literal `"case_id"` entry of `case_management`. -/
structure Connector where
  name : String
  description : String
  tools : List String
  category : String
  priority : String
  caseSpecific : Bool
  caseIdField : Option String
deriving DecidableEq

/-- the module-level configuration and registry read (never written) by
every handler: `CONNECTORS`, `CASE_ID`, `NODE_ENV`, `MCP_SERVER_URL`,
`PERPLEXITY_API_KEY`, and the fixed `user_context` label used by
`execute_connector_tool`. -/
structure GatewayState where
  connectors : List (String × Connector)
  caseId : String
  nodeEnv : String
  mcpServerUrl : String
  perplexityApiKey : Option String
  userContext : String

/-- membership / lookup in the `CONNECTORS` dict: Python dict keys are
unique, so first match equals the binding. -/
def lookupConnector (reg : List (String × Connector)) (cid : String) :
    Option Connector :=
  (reg.find? (fun p => p.1 = cid)).map (fun p => p.2)

/-- a raised `fastapi.HTTPException` with its status code and detail. -/
structure HTTPException where
  status : Nat
  detail : String
deriving DecidableEq

/-- Starlette renders `str(HTTPException(s, d))` as `"s: d"`; the batch
endpoint stores this rendering in the per-item `error` field. -/
def str_of_http_exception (e : HTTPException) : String :=
  toString e.status ++ ": " ++ e.detail

/-- one outbound HTTP POST issued by the relay (source lines 270-293):
target URL, the JSON-RPC style envelope fields, and the headers. -/
structure Payload where
  url : String
  method : String
  name : String
  arguments : PyDict
  headers : List (String × String)

/-- renders an optional environment value the way a Python f-string
renders it: a missing value prints as `"None"`. -/
def pyShow : Option String → String
  | some s => s
  | none => "None"

/-- classification of what the try block of `execute_connector_tool`
(source lines 285-295) observes for the single outbound call, matching
its three exception handlers: `requestException` is any
`requests.exceptions.RequestException` (non-2xx via `raise_for_status`,
connection failure, or the 30 s transport timeout); `timeoutError` is
`asyncio.TimeoutError` from the 45 s `asyncio.timeout` deadline;
`otherException` is any other exception. -/
inductive UpstreamOutcome where
  | ok (body : JVal)
  | requestException (msg : String)
  | timeoutError
  | otherException (msg : String)

/-- the `enhanced_context` dict built at source lines 260-267:
`{**request.arguments, **request.context, "case_id": CASE_ID,
"connector_id": connector_id, "timestamp": <utcnow>, "user_context":
<fixed label>}`. -/
def enhanced_context (st : GatewayState) (connector_id : String)
    (now : String) (request : ToolRequest) : PyDict :=
  dict_insert
    (dict_insert
      (dict_insert
        (dict_insert (dict_union request.arguments request.context)
          "case_id" (JVal.str st.caseId))
        "connector_id" (JVal.str connector_id))
      "timestamp" (JVal.str now))
    "user_context" (JVal.str st.userContext)

/-- the payload and headers of the single outbound POST (source lines
269-283): envelope `{"method": "tools/call", "params": {"name": tool,
"arguments": enhanced_context}}` posted to `MCP_SERVER_URL ++ "/mcp"`. -/
def mcp_payload (st : GatewayState) (connector_id : String) (now : String)
    (request : ToolRequest) : Payload :=
  { url := st.mcpServerUrl ++ "/mcp"
    method := "tools/call"
    name := request.tool
    arguments := enhanced_context st connector_id now request
    headers :=
      [("Content-Type", "application/json"),
       ("Authorization", "Bearer " ++ pyShow st.perplexityApiKey),
       ("X-Case-ID", st.caseId),
       ("X-Connector-ID", connector_id)] }

/-- result of a handler: the returned/raised value, the trace of outbound
HTTP POSTs it issued, and the module state after the call (the source
contains no assignment to any module global, so handlers return it
unchanged). -/
structure Eff (α : Type) where
  val : α
  calls : List Payload
  state : GatewayState

/-- handler `execute_connector_tool` (source lines 246-310), with the
call time `now` (`datetime.utcnow().isoformat()`) and the upstream
oracle made explicit. Unknown connector raises 404; a tool outside the
connector tool list raises 400; otherwise exactly one POST is issued and
the outcome is dispatched by exception class: success builds a
`ConnectorResponse`, `asyncio.TimeoutError` raises 504,
`RequestException` raises 502, anything else raises 500. -/
def execute_connector_tool (st : GatewayState) (now : String)
    (upstream : Payload → UpstreamOutcome) (connector_id : String)
    (request : ToolRequest) : Eff (Except HTTPException ConnectorResponse) :=
  match lookupConnector st.connectors connector_id with
  | none => ⟨.error ⟨404, "Connector not found"⟩, [], st⟩
  | some connector =>
    if request.tool ∉ connector.tools then
      ⟨.error ⟨400, "Tool " ++ request.tool ++ " not available in connector "
          ++ connector_id⟩, [], st⟩
    else
      let payload := mcp_payload st connector_id now request
      match upstream payload with
      | .ok body =>
          ⟨.ok ⟨"success", request.tool, body, now, connector_id⟩, [payload], st⟩
      | .requestException msg =>
          ⟨.error ⟨502, "MCP server error: " ++ msg⟩, [payload], st⟩
      | .timeoutError =>
          ⟨.error ⟨504, "Tool execution timeout"⟩, [payload], st⟩
      | .otherException msg =>
          ⟨.error ⟨500, "Execution error: " ++ msg⟩, [payload], st⟩

/-- handler `health_check` response (source lines 183-194). -/
structure HealthResponse where
  status : String
  service : String
  version : String
  connectors_available : Nat
  total_tools : Nat
  case_id : String
  environment : String
  timestamp : String

/-- handler `health_check` (source lines 183-194): `total_tools` is the
sum of `len(connector["tools"])` over the registry. -/
def health_check (st : GatewayState) (now : String) : Eff HealthResponse :=
  ⟨{ status := "healthy"
     service := "perplexity-app-connector-bridge-maximum"
     version := "2.0.0"
     connectors_available := st.connectors.length
     total_tools := (st.connectors.map (fun p => p.2.tools.length)).sum
     case_id := st.caseId
     environment := st.nodeEnv
     timestamp := now }, [], st⟩

/-- one per-connector entry of the `GET /connectors` summary (source
lines 206-216); `case_id` is present only when the connector has a
truthy `case_specific` flag. -/
structure ConnectorSummary where
  name : String
  description : String
  tools_count : Nat
  category : String
  priority : String
  available : Bool
  case_id : Option String

/-- handler `list_connectors` response (source lines 218-224). -/
structure ListConnectorsResponse where
  connectors : List (String × ConnectorSummary)
  total_connectors : Nat
  total_tools : Nat
  case_id : String
  status : String

/-- handler `list_connectors` (source lines 197-224): builds the summary
per connector and accumulates `total_tools` with a running sum, in
registry order. -/
def list_connectors (st : GatewayState) : Eff ListConnectorsResponse :=
  ⟨{ connectors := st.connectors.map (fun p =>
        (p.1,
         { name := p.2.name
           description := p.2.description
           tools_count := p.2.tools.length
           category := p.2.category
           priority := p.2.priority
           available := true
           case_id := if p.2.caseSpecific then some st.caseId else none }))
     total_connectors := st.connectors.length
     total_tools := st.connectors.foldl (fun acc p => acc + p.2.tools.length) 0
     case_id := st.caseId
     status := "all_systems_operational" }, [], st⟩

/-- handler `get_connector_details` response (source lines 234-243). -/
structure ConnectorDetails where
  connector_id : String
  name : String
  description : String
  tools : List String
  category : String
  priority : String
  tools_count : Nat
  case_specific : Bool
deriving DecidableEq

/-- handler `get_connector_details` (source lines 227-243): 404 when the
id is absent from the registry, else the connector fields. It issues no
outbound call. -/
def get_connector_details (st : GatewayState) (connector_id : String) :
    Eff (Except HTTPException ConnectorDetails) :=
  match lookupConnector st.connectors connector_id with
  | none => ⟨.error ⟨404, "Connector not found"⟩, [], st⟩
  | some connector =>
      ⟨.ok { connector_id := connector_id
             name := connector.name
             description := connector.description
             tools := connector.tools
             category := connector.category
             priority := connector.priority
             tools_count := connector.tools.length
             case_specific := connector.caseSpecific }, [], st⟩

/-- handler `get_case_status` response (source lines 412-432); only the
fields the claims mention are named individually, the static descriptive
strings are kept verbatim. -/
structure CaseStatusResponse where
  case_id : String
  case_title : String
  case_type : String
  jurisdiction : String
  status : String
  next_court_date : String
  critical_dates : List (String × String)
  priority_objectives : List String
  available_tools : Nat
  intelligence_status : String

/-- handler `get_case_status` (source lines 407-432): 404 unless
`case_id` equals the configured `CASE_ID`; `available_tools` is the
length of the flattened list of tools of connectors whose
`case_specific` entry is truthy. It issues no outbound call. -/
def get_case_status (st : GatewayState) (case_id : String) :
    Eff (Except HTTPException CaseStatusResponse) :=
  if case_id ≠ st.caseId then ⟨.error ⟨404, "Case not found"⟩, [], st⟩
  else
    ⟨.ok { case_id := case_id
           case_title :=
             "Casey Del Carpio Barton vs Teresa - Child Custody & Visitation"
           case_type := "Family Court - Child Custody"
           jurisdiction := "Hawaii Family Court"
           status := "Active - Seeking Earlier Visitation"
           next_court_date := "2025-11-08"
           critical_dates :=
             [("casey_birthday", "2025-11-17"),
              ("kekoa_birthday", "2025-11-29"),
              ("current_injury", "Kekoa healing from broken arm")]
           priority_objectives :=
             ["Secure earlier visitation before November 8th",
              "Document Teresa\x27s neglectful care patterns",
              "Prepare for shared November birthdays",
              "Ensure Kekoa\x27s emotional and physical wellbeing"]
           available_tools :=
             ((st.connectors.filter (fun p => p.2.caseSpecific)).map
               (fun p => p.2.tools)).flatten.length
           intelligence_status := "Maximum capability deployed" }, [], st⟩

/-- a JSON request body for the execute endpoint, before pydantic
validation: each `ToolRequest` field may be present or absent. -/
structure RawBody where
  tool : Option String
  arguments : Option PyDict
  context : Option PyDict

/-- pydantic construction of a `ToolRequest` from a body: `tool` has no
default and is required, `arguments` and `context` default to `{}`. A
missing `tool` raises a validation error. -/
def parse_tool_request (b : RawBody) : Except String ToolRequest :=
  match b.tool with
  | none => .error "Field required: tool"
  | some t => .ok ⟨t, b.arguments.getD PyDict.empty, b.context.getD PyDict.empty⟩

/-- the full `POST /connectors/{id}/execute` path as FastAPI runs it:
the framework validates the body against `ToolRequest` before the
handler is invoked, and its default handler for a request-validation
failure responds with status 422 (Unprocessable Entity), not 400; on
success the handler `execute_connector_tool` runs. -/
def execute_endpoint (st : GatewayState) (now : String)
    (upstream : Payload → UpstreamOutcome) (connector_id : String)
    (body : RawBody) : Eff (Except HTTPException ConnectorResponse) :=
  match parse_tool_request body with
  | .error e => ⟨.error ⟨422, e⟩, [], st⟩
  | .ok request => execute_connector_tool st now upstream connector_id request

/-- one element of the JSON array posted to `POST /connectors/batch`:
`req.get("connector_id")` may be absent (Python `None`), and
`req.get("request", {})` defaults to the empty dict. -/
structure BatchItem where
  connector_id : Option String
  request : Option RawBody

/-- one entry of `batch_results` (source lines 387-397): a success entry
carries the `ConnectorResponse`, an error entry carries `str(e)`. -/
structure BatchEntry where
  connector_id : Option String
  status : String
  result : Option ConnectorResponse
  error : Option String

/-- the single-execute step the batch loop performs for one item: the
Python call `execute_connector_tool(connector_id, tool_request)` where
`connector_id` may be `None`; `None` fails the `in CONNECTORS`
membership test exactly like an unknown id, raising 404 without any
outbound call. -/
def batch_item_execute (st : GatewayState) (now : String)
    (upstream : Payload → UpstreamOutcome) (connector_id : Option String)
    (request : ToolRequest) : Eff (Except HTTPException ConnectorResponse) :=
  match connector_id with
  | none => ⟨.error ⟨404, "Connector not found"⟩, [], st⟩
  | some cid => execute_connector_tool st now upstream cid request

/-- the `batch_results` entry a single well-formed item receives from
the batch loop (source lines 385-397): the raised `HTTPException` of a
failed execute is caught by the per-item `except Exception` and rendered
with `str(e)`. The `.error` branch of the parse is never reached by the
loop (construction happens before the try block and aborts the batch);
it is given the per-item rendering only so the function is total. -/
def batch_item_entry (st : GatewayState) (now : String)
    (upstream : Payload → UpstreamOutcome) (item : BatchItem) : BatchEntry :=
  match parse_tool_request (item.request.getD ⟨none, none, none⟩) with
  | .error e => ⟨item.connector_id, "error", none, some e⟩
  | .ok request =>
    match (batch_item_execute st now upstream item.connector_id request).val with
    | .ok r => ⟨item.connector_id, "success", some r, none⟩
    | .error ex =>
        ⟨item.connector_id, "error", none, some (str_of_http_exception ex)⟩

/-- the loop of `batch_execute` (source lines 379-397). The
`ToolRequest(**req.get("request", {}))` construction stands OUTSIDE the
per-item try block: a pydantic validation error there propagates and
aborts the whole batch (`Except.error`), discarding entries already
built; only exceptions raised by `execute_connector_tool` are caught
into per-item error entries. -/
def batch_loop (st : GatewayState) (now : String)
    (upstream : Payload → UpstreamOutcome) :
    List BatchItem → Except String (List BatchEntry) × List Payload
  | [] => (.ok [], [])
  | item :: rest =>
    match parse_tool_request (item.request.getD ⟨none, none, none⟩) with
    | .error e => (.error e, [])
    | .ok request =>
      let out := batch_item_execute st now upstream item.connector_id request
      let entry : BatchEntry :=
        match out.val with
        | .ok r => ⟨item.connector_id, "success", some r, none⟩
        | .error ex =>
            ⟨item.connector_id, "error", none, some (str_of_http_exception ex)⟩
      match batch_loop st now upstream rest with
      | (.error e, cs) => (.error e, out.calls ++ cs)
      | (.ok entries, cs) => (.ok (entry :: entries), out.calls ++ cs)

/-- handler `batch_execute` response (source lines 399-404). -/
structure BatchResponse where
  batch_results : List BatchEntry
  total_requests : Nat
  successful : Nat
  failed : Nat

/-- handler `batch_execute` (source lines 377-404): runs the loop over
the items in input order; when no construction error aborts it, returns
the entries with the aggregate counts. An aborting pydantic error
escapes the handler (modelled as `Except.error`). -/
def batch_execute (st : GatewayState) (now : String)
    (upstream : Payload → UpstreamOutcome) (items : List BatchItem) :
    Eff (Except String BatchResponse) :=
  match batch_loop st now upstream items with
  | (.error e, cs) => ⟨.error e, cs, st⟩
  | (.ok entries, cs) =>
      ⟨.ok { batch_results := entries
             total_requests := items.length
             successful := (entries.filter (fun r => r.status = "success")).length
             failed := (entries.filter (fun r => r.status = "error")).length },
       cs, st⟩

/-- the static `CONNECTORS` table (source lines 64-180), transcribed
entry by entry. Only `legal_research` carries `"case_specific": True`;
`case_management` carries a `"case_id"` entry but no `"case_specific"`
key. -/
def CONNECTORS : List (String × Connector) :=
  [("notion_suite",
    { name := "📝 Notion Workspace Suite"
      description := "Complete Notion integration for case documentation"
      tools :=
        ["mcp_tool_notion-search",
         "mcp_tool_notion-fetch",
         "mcp_tool_notion-create-pages",
         "mcp_tool_notion-update-page",
         "mcp_tool_notion-create-database",
         "mcp_tool_notion-update-database",
         "mcp_tool_notion-create-comment",
         "mcp_tool_notion-get-comments"]
      category := "productivity"
      priority := "high"
      caseSpecific := false
      caseIdField := none }),
   ("github_suite",
    { name := "🔧 GitHub Development Suite"
      description := "Complete GitHub integration for repository management"
      tools :=
        ["mcp_tool_github-mcp-direct_get_file_contents",
         "mcp_tool_github-mcp-direct_create_or_update_file",
         "mcp_tool_github-mcp-direct_create_issue",
         "mcp_tool_github-mcp-direct_get_issue",
         "mcp_tool_github-mcp-direct_list_issues",
         "mcp_tool_github-mcp-direct_create_pull_request",
         "mcp_tool_github-mcp-direct_search_repositories",
         "mcp_tool_github-mcp-direct_search_code",
         "mcp_tool_github-mcp-direct_create_repository"]
      category := "development"
      priority := "high"
      caseSpecific := false
      caseIdField := none }),
   ("search_intelligence",
    { name := "🔍 Search Intelligence Suite"
      description := "Advanced search across web, memory, files, and AI history"
      tools :=
        ["search_web",
         "search_memory",
         "search_files_v2",
         "search_email",
         "search_calendar",
         "search_ai_chat_history",
         "search_images"]
      category := "intelligence"
      priority := "critical"
      caseSpecific := false
      caseIdField := none }),
   ("legal_research",
    { name := "⚖️ Legal Research Suite"
      description :=
        "Comprehensive legal research and case building for 1FDV-23-0001009"
      tools :=
        ["legal_research_courtlistener",
         "case_law_search",
         "evidence_analysis",
         "document_review",
         "forensic_timeline",
         "hawaii_family_court_research"]
      category := "legal"
      priority := "critical"
      caseSpecific := true
      caseIdField := none }),
   ("productivity_suite",
    { name := "📊 Productivity & Communication Suite"
      description := "Email, calendar, and communication management"
      tools :=
        ["email_calendar_agent",
         "create_pdf",
         "create_text_file",
         "execute_python",
         "create_chart"]
      category := "productivity"
      priority := "medium"
      caseSpecific := false
      caseIdField := none }),
   ("ai_generation",
    { name := "🎨 AI Generation Suite"
      description := "Content creation and visual generation"
      tools :=
        ["generate_image",
         "create_chart",
         "create_pdf",
         "execute_python"]
      category := "generation"
      priority := "medium"
      caseSpecific := false
      caseIdField := none }),
   ("finance_intelligence",
    { name := "💰 Finance Intelligence Suite"
      description := "Financial analysis and market research"
      tools :=
        ["finance_ticker_lookup",
         "finance_price_history",
         "finance_company_financials",
         "finance_screener"]
      category := "finance"
      priority := "low"
      caseSpecific := false
      caseIdField := none }),
   ("case_management",
    { name := "📁 Case 1FDV-23-0001009 Management"
      description := "Dedicated case management and evidence orchestration"
      tools :=
        ["case_timeline_builder",
         "evidence_cataloger",
         "hearing_prep_assistant",
         "kekoa_wellness_tracker",
         "teresa_documentation",
         "father_son_reunion_planner"]
      category := "case_specific"
      priority := "critical"
      caseSpecific := false
      caseIdField := some "1FDV-23-0001009" })]

/-- default configured case id (source line 35). -/
def CASE_ID : String := "1FDV-23-0001009"

/-- the module state with the default environment configuration
(source lines 33-48, 266): the registry, `CASE_ID`, `NODE_ENV`,
`MCP_SERVER_URL` defaults, an unset `PERPLEXITY_API_KEY`, and the fixed
`user_context` label. -/
def S0 : GatewayState :=
  { connectors := CONNECTORS
    caseId := CASE_ID
    nodeEnv := "production"
    mcpServerUrl := "https://perplexity-mcp-server-production.railway.app"
    perplexityApiKey := none
    userContext := "Casey Del Carpio Barton - Case 1FDV-23-0001009" }

/-- registry predicate `hasTool` of the specification, computed from the
registry the way the handler does: the connector exists and the tool
name is in its tool list. -/
def hasTool (reg : List (String × Connector)) (cid tool : String) : Bool :=
  match lookupConnector reg cid with
  | some c => c.tools.contains tool
  | none => false

theorem hasTool_spec (reg : List (String × Connector)) (cid tool : String)
    (h : hasTool reg cid tool = true) :
    ∃ c, lookupConnector reg cid = some c ∧ tool ∈ c.tools := by
  unfold hasTool at h
  cases hl : lookupConnector reg cid with
  | none => rw [hl] at h; cases h
  | some c =>
      rw [hl] at h
      exact ⟨c, rfl, by simpa using h⟩

theorem enhanced_context_lookup (st : GatewayState)
    (connector_id now : String) (request : ToolRequest) (k : String) :
    enhanced_context st connector_id now request k =
      (if k = "case_id" then some (JVal.str st.caseId)
       else if k = "connector_id" then some (JVal.str connector_id)
       else if k = "timestamp" then some (JVal.str now)
       else if k = "user_context" then some (JVal.str st.userContext)
       else
         match request.context k with
         | some v => some v
         | none => request.arguments k) := by
  by_cases h1 : k = "case_id"
  · subst h1; simp [enhanced_context, dict_insert, dict_union]
  by_cases h2 : k = "connector_id"
  · subst h2; simp [enhanced_context, dict_insert, dict_union]
  by_cases h3 : k = "timestamp"
  · subst h3; simp [enhanced_context, dict_insert, dict_union]
  by_cases h4 : k = "user_context"
  · subst h4; simp [enhanced_context, dict_insert, dict_union]
  · simp [enhanced_context, dict_insert, dict_union, h1, h2, h3, h4]

/-- C1: for every execute invocation with a known connector id and a
tool permitted for that connector, the payload sent upstream under
params.arguments equals the caller arguments overlaid by the caller
context (context keys win key conflicts with arguments), overlaid by the
fixed fields case_id, connector_id, timestamp and user_context, with the
fixed fields winning over any caller-supplied key of the same name. -/
theorem execute_payload_enrichment (st : GatewayState) (now : String)
    (upstream : Payload → UpstreamOutcome) (connector_id : String)
    (request : ToolRequest)
    (h : hasTool st.connectors connector_id request.tool = true) :
    ∃ p : Payload,
      (execute_connector_tool st now upstream connector_id request).calls = [p] ∧
      p.method = "tools/call" ∧
      p.name = request.tool ∧
      ∀ k, p.arguments k =
        (if k = "case_id" then some (JVal.str st.caseId)
         else if k = "connector_id" then some (JVal.str connector_id)
         else if k = "timestamp" then some (JVal.str now)
         else if k = "user_context" then some (JVal.str st.userContext)
         else
           match request.context k with
           | some v => some v
           | none => request.arguments k) := by
  obtain ⟨c, hl, ht⟩ := hasTool_spec _ _ _ h
  refine ⟨mcp_payload st connector_id now request, ?_, rfl, rfl,
    fun k => enhanced_context_lookup st connector_id now request k⟩
  unfold execute_connector_tool
  rw [hl]
  dsimp only
  rw [if_neg (not_not_intro ht)]
  cases upstream (mcp_payload st connector_id now request) <;> rfl

/-- C1 witness: a concrete invocation of legal_research / case_law_search
with conflicting caller keys. -/
theorem execute_payload_enrichment_witness :
    hasTool S0.connectors "legal_research" "case_law_search" = true ∧
    ∃ p : Payload,
      (execute_connector_tool S0 "2025-10-12T00:00:00" (fun _ => .ok .null)
        "legal_research"
        ⟨"case_law_search",
         fun k => if k = "q" then some (.str "x")
                  else if k = "case_id" then some (.str "spoofed")
                  else none,
         fun k => if k = "q" then some (.str "y") else none⟩).calls = [p] ∧
      p.method = "tools/call" ∧
      p.name = "case_law_search" ∧
      ∀ k, p.arguments k =
        (if k = "case_id" then some (JVal.str S0.caseId)
         else if k = "connector_id" then some (JVal.str "legal_research")
         else if k = "timestamp" then some (JVal.str "2025-10-12T00:00:00")
         else if k = "user_context" then some (JVal.str S0.userContext)
         else
           match (fun k => if k = "q" then some (JVal.str "y") else none : PyDict) k with
           | some v => some v
           | none =>
               (fun k => if k = "q" then some (JVal.str "x")
                         else if k = "case_id" then some (JVal.str "spoofed")
                         else none : PyDict) k) :=
  ⟨by decide,
   execute_payload_enrichment S0 "2025-10-12T00:00:00" (fun _ => .ok .null)
     "legal_research" _ (by decide)⟩

/-- C2: for every execute invocation in which the upstream call exceeds
its overall deadline (the asyncio timeout fires with no response), the
execute operation fails with GatewayTimeout 504, not BadGateway 502. -/
theorem execute_deadline_timeout_504 (st : GatewayState) (now : String)
    (upstream : Payload → UpstreamOutcome) (connector_id : String)
    (request : ToolRequest)
    (h : hasTool st.connectors connector_id request.tool = true)
    (hu : ∀ p, upstream p = .timeoutError) :
    (execute_connector_tool st now upstream connector_id request).val =
      .error ⟨504, "Tool execution timeout"⟩ ∧
    ∀ msg, (execute_connector_tool st now upstream connector_id request).val ≠
      .error ⟨502, msg⟩ := by
  obtain ⟨c, hl, ht⟩ := hasTool_spec _ _ _ h
  unfold execute_connector_tool
  rw [hl]
  dsimp only
  rw [if_neg (not_not_intro ht), hu]
  exact ⟨rfl, by simp⟩

/-- C2 witness: a concrete invocation where the upstream oracle reports
the deadline exceeded. -/
theorem execute_deadline_timeout_504_witness :
    hasTool S0.connectors "legal_research" "case_law_search" = true ∧
    (∀ p : Payload, (fun _ : Payload => UpstreamOutcome.timeoutError) p =
      .timeoutError) ∧
    ((execute_connector_tool S0 "t0" (fun _ => .timeoutError) "legal_research"
        ⟨"case_law_search", PyDict.empty, PyDict.empty⟩).val =
      .error ⟨504, "Tool execution timeout"⟩ ∧
     ∀ msg, (execute_connector_tool S0 "t0" (fun _ => .timeoutError)
        "legal_research"
        ⟨"case_law_search", PyDict.empty, PyDict.empty⟩).val ≠
      .error ⟨502, msg⟩) :=
  ⟨by decide, fun _ => rfl,
   execute_deadline_timeout_504 S0 "t0" (fun _ => .timeoutError)
     "legal_research" ⟨"case_law_search", PyDict.empty, PyDict.empty⟩
     (by decide) (fun _ => rfl)⟩

/-- C3: for every connector id not present in the registry, both
operations taking a connector id (GET /connectors/id and POST
/connectors/id/execute) return NotFound 404 and perform no upstream
call. -/
theorem unknown_connector_not_found (st : GatewayState) (now : String)
    (upstream : Payload → UpstreamOutcome) (connector_id : String)
    (h : (lookupConnector st.connectors connector_id).isSome = false) :
    (get_connector_details st connector_id).val =
      .error ⟨404, "Connector not found"⟩ ∧
    (get_connector_details st connector_id).calls = [] ∧
    ∀ request : ToolRequest,
      (execute_connector_tool st now upstream connector_id request).val =
        .error ⟨404, "Connector not found"⟩ ∧
      (execute_connector_tool st now upstream connector_id request).calls =
        [] := by
  have hl : lookupConnector st.connectors connector_id = none := by
    cases hc : lookupConnector st.connectors connector_id with
    | none => rfl
    | some c => rw [hc] at h; cases h
  unfold get_connector_details execute_connector_tool
  rw [hl]
  exact ⟨rfl, rfl, fun _ => ⟨rfl, rfl⟩⟩

/-- C3 witness: the id unknown-id is absent from the registry. -/
theorem unknown_connector_not_found_witness :
    (lookupConnector S0.connectors "unknown-id").isSome = false ∧
    ((get_connector_details S0 "unknown-id").val =
      .error ⟨404, "Connector not found"⟩ ∧
     (get_connector_details S0 "unknown-id").calls = [] ∧
     ∀ request : ToolRequest,
       (execute_connector_tool S0 "t0" (fun _ => .ok .null) "unknown-id"
          request).val = .error ⟨404, "Connector not found"⟩ ∧
       (execute_connector_tool S0 "t0" (fun _ => .ok .null) "unknown-id"
          request).calls = []) :=
  ⟨by decide,
   unknown_connector_not_found S0 "t0" (fun _ => .ok .null) "unknown-id"
     (by decide)⟩

/-- C4: for every connector id present in the registry and every tool
name not in the tool list of that connector, execute returns BadRequest
400 and performs no upstream call. -/
theorem known_connector_unknown_tool_bad_request (st : GatewayState)
    (now : String) (upstream : Payload → UpstreamOutcome)
    (connector_id : String) (request : ToolRequest)
    (hc : (lookupConnector st.connectors connector_id).isSome = true)
    (ht : hasTool st.connectors connector_id request.tool = false) :
    (execute_connector_tool st now upstream connector_id request).val =
      .error ⟨400, "Tool " ++ request.tool ++ " not available in connector "
        ++ connector_id⟩ ∧
    (execute_connector_tool st now upstream connector_id request).calls =
      [] := by
  obtain ⟨c, hl⟩ := Option.isSome_iff_exists.mp hc
  have hmem : request.tool ∉ c.tools := by
    unfold hasTool at ht
    rw [hl] at ht
    simpa using ht
  unfold execute_connector_tool
  rw [hl]
  dsimp only
  rw [if_pos hmem]
  exact ⟨rfl, rfl⟩

/-- C4 witness: notion_suite exists but has no tool named search_web. -/
theorem known_connector_unknown_tool_bad_request_witness :
    (lookupConnector S0.connectors "notion_suite").isSome = true ∧
    hasTool S0.connectors "notion_suite" "search_web" = false ∧
    ((execute_connector_tool S0 "t0" (fun _ => .ok .null) "notion_suite"
        ⟨"search_web", PyDict.empty, PyDict.empty⟩).val =
      .error ⟨400, "Tool " ++ "search_web" ++ " not available in connector "
        ++ "notion_suite"⟩ ∧
     (execute_connector_tool S0 "t0" (fun _ => .ok .null) "notion_suite"
        ⟨"search_web", PyDict.empty, PyDict.empty⟩).calls = []) :=
  ⟨by decide, by decide,
   known_connector_unknown_tool_bad_request S0 "t0" (fun _ => .ok .null)
     "notion_suite" ⟨"search_web", PyDict.empty, PyDict.empty⟩
     (by decide) (by decide)⟩

theorem batch_loop_ok (st : GatewayState) (now : String)
    (upstream : Payload → UpstreamOutcome) (items : List BatchItem)
    (h : ∀ item ∈ items,
      (parse_tool_request (item.request.getD ⟨none, none, none⟩)).isOk = true) :
    (batch_loop st now upstream items).1 =
      .ok (items.map (batch_item_entry st now upstream)) := by
  induction items with
  | nil => rfl
  | cons item rest ih =>
    have hp := h item (List.mem_cons_self item rest)
    have hrest := fun i hi => h i (List.mem_cons_of_mem item hi)
    cases hq : parse_tool_request (item.request.getD ⟨none, none, none⟩) with
    | error e => rw [hq] at hp; exact Bool.noConfusion hp
    | ok request =>
      have hr := ih hrest
      unfold batch_loop
      rw [hq]
      dsimp only
      rcases hb : batch_loop st now upstream rest with ⟨res, cs⟩
      rw [hb] at hr
      dsimp only at hr
      subst hr
      dsimp only
      rw [List.map_cons]
      unfold batch_item_entry
      rw [hq]

/-- C5: a batch of well-formed items is executed through the
single-execute path item by item, in input order; a per-item failure is
captured into that item entry without aborting the rest, and the
returned batch_results list has exactly the input length. -/
theorem batch_preserves_order_and_length (st : GatewayState) (now : String)
    (upstream : Payload → UpstreamOutcome) (items : List BatchItem)
    (h : ∀ item ∈ items,
      (parse_tool_request (item.request.getD ⟨none, none, none⟩)).isOk = true) :
    ∃ resp : BatchResponse,
      (batch_execute st now upstream items).val = .ok resp ∧
      resp.batch_results = items.map (batch_item_entry st now upstream) ∧
      resp.batch_results.length = items.length ∧
      resp.total_requests = items.length := by
  have hl := batch_loop_ok st now upstream items h
  unfold batch_execute
  rcases hb : batch_loop st now upstream items with ⟨res, cs⟩
  rw [hb] at hl
  dsimp only at hl
  subst hl
  exact ⟨_, rfl, rfl, by simp, rfl⟩

/-- C5 witness: a two-item batch whose second item names an unknown
connector; both items are well formed, the result keeps both entries. -/
theorem batch_preserves_order_and_length_witness :
    (∀ item ∈
      [(⟨some "legal_research", some ⟨some "case_law_search", none, none⟩⟩ :
          BatchItem),
       (⟨some "nope", some ⟨some "case_law_search", none, none⟩⟩ : BatchItem)],
      (parse_tool_request (item.request.getD ⟨none, none, none⟩)).isOk =
        true) ∧
    ∃ resp : BatchResponse,
      (batch_execute S0 "t0" (fun _ => .ok .null)
        [⟨some "legal_research", some ⟨some "case_law_search", none, none⟩⟩,
         ⟨some "nope", some ⟨some "case_law_search", none, none⟩⟩]).val =
        .ok resp ∧
      resp.batch_results =
        [⟨some "legal_research", some ⟨some "case_law_search", none, none⟩⟩,
         (⟨some "nope", some ⟨some "case_law_search", none, none⟩⟩ :
             BatchItem)].map
          (batch_item_entry S0 "t0" (fun _ => .ok .null)) ∧
      resp.batch_results.length = 2 ∧
      resp.total_requests = 2 :=
  ⟨by decide,
   batch_preserves_order_and_length S0 "t0" (fun _ => .ok .null)
     [⟨some "legal_research", some ⟨some "case_law_search", none, none⟩⟩,
      ⟨some "nope", some ⟨some "case_law_search", none, none⟩⟩]
     (by decide)⟩

/-- C6 counterexample: a one-item batch whose item has no request value
(so `ToolRequest(**{})` fails validation) makes the whole batch endpoint
raise the construction error instead of returning a result list with a
per-item failure entry. -/
theorem batch_malformed_item_aborts_cex :
    (batch_execute S0 "t0" (fun _ => .ok .null)
        [⟨some "legal_research", none⟩]).val =
      .error "Field required: tool" := rfl

theorem batch_loop_aborts (st : GatewayState) (now : String)
    (upstream : Payload → UpstreamOutcome) :
    ∀ items : List BatchItem,
    (∃ item ∈ items,
      (parse_tool_request (item.request.getD ⟨none, none, none⟩)).isOk =
        false) →
    ∃ e, (batch_loop st now upstream items).1 = .error e := by
  intro items
  induction items with
  | nil => rintro ⟨item, hmem, _⟩; cases hmem
  | cons it rest ih =>
    rintro ⟨item, hmem, hbad⟩
    cases hq : parse_tool_request (it.request.getD ⟨none, none, none⟩) with
    | error e =>
        refine ⟨e, ?_⟩
        unfold batch_loop
        rw [hq]
    | ok request =>
        have hrest : ∃ i ∈ rest,
            (parse_tool_request (i.request.getD ⟨none, none, none⟩)).isOk =
              false := by
          rcases List.mem_cons.mp hmem with h1 | h1
          · subst h1; rw [hq] at hbad; exact Bool.noConfusion hbad
          · exact ⟨item, h1, hbad⟩
        obtain ⟨e, he⟩ := ih hrest
        refine ⟨e, ?_⟩
        unfold batch_loop
        rw [hq]
        dsimp only
        rcases hb : batch_loop st now upstream rest with ⟨res, cs⟩
        rw [hb] at he
        dsimp only at he
        subst he
        rfl

/-- C6 amended: the ToolRequest construction for a batch item stands
before the per-item try block, so a malformed item (one whose request
value does not form a valid ToolRequest) makes its construction error
propagate and fail the whole batch instead of being converted into a
per-item failure entry. -/
theorem batch_malformed_item_aborts (st : GatewayState) (now : String)
    (upstream : Payload → UpstreamOutcome) (items : List BatchItem)
    (h : ∃ item ∈ items,
      (parse_tool_request (item.request.getD ⟨none, none, none⟩)).isOk =
        false) :
    ∃ e, (batch_execute st now upstream items).val = .error e := by
  obtain ⟨e, he⟩ := batch_loop_aborts st now upstream items h
  refine ⟨e, ?_⟩
  unfold batch_execute
  rcases hb : batch_loop st now upstream items with ⟨res, cs⟩
  rw [hb] at he
  dsimp only at he
  subst he
  rfl

/-- C6 amended witness: a batch holding one item with an empty request
body aborts with the validation error. -/
theorem batch_malformed_item_aborts_witness :
    (∃ item ∈ [(⟨some "legal_research", none⟩ : BatchItem)],
      (parse_tool_request (item.request.getD ⟨none, none, none⟩)).isOk =
        false) ∧
    ∃ e, (batch_execute S0 "t1" (fun _ => .ok .null)
        [⟨some "legal_research", none⟩]).val = .error e :=
  ⟨by decide,
   batch_malformed_item_aborts S0 "t1" (fun _ => .ok .null)
     [⟨some "legal_research", none⟩] (by decide)⟩

/-- C7 counterexample: a body lacking the required tool field is rejected
by the FastAPI request validation of the ToolRequest body model, whose
default response status is 422 Unprocessable Entity, not 400. -/
theorem execute_missing_tool_field_cex :
    (execute_endpoint S0 "t0" (fun _ => .ok .null) "notion_suite"
        ⟨none, none, none⟩).val =
      .error ⟨422, "Field required: tool"⟩ ∧
    (422 : Nat) ≠ 400 :=
  ⟨rfl, by decide⟩

/-- C7 amended: for every execute request whose body lacks the required
tool field, the gateway responds with status 422 (the FastAPI default
for request-validation failures) rather than 400, and performs no
upstream call. -/
theorem execute_missing_tool_field_422 (st : GatewayState) (now : String)
    (upstream : Payload → UpstreamOutcome) (connector_id : String)
    (body : RawBody) (h : body.tool = none) :
    (execute_endpoint st now upstream connector_id body).val =
      .error ⟨422, "Field required: tool"⟩ ∧
    (execute_endpoint st now upstream connector_id body).calls = [] := by
  unfold execute_endpoint parse_tool_request
  rw [h]
  exact ⟨rfl, rfl⟩

/-- C7 amended witness: the empty body at the notion_suite endpoint. -/
theorem execute_missing_tool_field_422_witness :
    (⟨none, none, none⟩ : RawBody).tool = none ∧
    ((execute_endpoint S0 "t2" (fun _ => .ok .null) "notion_suite"
        ⟨none, none, none⟩).val =
      .error ⟨422, "Field required: tool"⟩ ∧
     (execute_endpoint S0 "t2" (fun _ => .ok .null) "notion_suite"
        ⟨none, none, none⟩).calls = []) :=
  ⟨rfl,
   execute_missing_tool_field_422 S0 "t2" (fun _ => .ok .null) "notion_suite"
     ⟨none, none, none⟩ rfl⟩

/-- C8: every execute invocation that passes connector and tool
validation issues exactly one outbound POST (a single attempt, whatever
the outcome class), and no handler mutates the registry or the
configuration. -/
theorem execute_single_call_no_state_change (st : GatewayState)
    (now : String) (upstream : Payload → UpstreamOutcome)
    (connector_id : String) (request : ToolRequest)
    (h : hasTool st.connectors connector_id request.tool = true) :
    (execute_connector_tool st now upstream connector_id request).calls =
      [mcp_payload st connector_id now request] ∧
    (execute_connector_tool st now upstream connector_id request).state =
      st ∧
    (∀ cid, (get_connector_details st cid).state = st) ∧
    (health_check st now).state = st ∧
    (list_connectors st).state = st ∧
    (∀ case_id, (get_case_status st case_id).state = st) ∧
    (∀ items, (batch_execute st now upstream items).state = st) := by
  obtain ⟨c, hl, ht⟩ := hasTool_spec _ _ _ h
  refine ⟨?_, ?_, ?_, rfl, rfl, ?_, ?_⟩
  · unfold execute_connector_tool
    rw [hl]
    dsimp only
    rw [if_neg (not_not_intro ht)]
    cases upstream (mcp_payload st connector_id now request) <;> rfl
  · unfold execute_connector_tool
    rw [hl]
    dsimp only
    rw [if_neg (not_not_intro ht)]
    cases upstream (mcp_payload st connector_id now request) <;> rfl
  · intro cid
    unfold get_connector_details
    cases lookupConnector st.connectors cid <;> rfl
  · intro case_id
    unfold get_case_status
    split <;> rfl
  · intro items
    unfold batch_execute
    rcases hb : batch_loop st now upstream items with ⟨res, cs⟩
    cases res <;> rfl

/-- C8 witness: a validated invocation of legal_research /
case_law_search. -/
theorem execute_single_call_no_state_change_witness :
    hasTool S0.connectors "legal_research" "case_law_search" = true ∧
    (execute_connector_tool S0 "t3" (fun _ => .requestException "boom")
        "legal_research"
        ⟨"case_law_search", PyDict.empty, PyDict.empty⟩).calls =
      [mcp_payload S0 "legal_research" "t3"
        ⟨"case_law_search", PyDict.empty, PyDict.empty⟩] ∧
    (execute_connector_tool S0 "t3" (fun _ => .requestException "boom")
        "legal_research"
        ⟨"case_law_search", PyDict.empty, PyDict.empty⟩).state = S0 :=
  ⟨by decide,
   (execute_single_call_no_state_change S0 "t3"
     (fun _ => .requestException "boom") "legal_research"
     ⟨"case_law_search", PyDict.empty, PyDict.empty⟩ (by decide)).1,
   (execute_single_call_no_state_change S0 "t3"
     (fun _ => .requestException "boom") "legal_research"
     ⟨"case_law_search", PyDict.empty, PyDict.empty⟩ (by decide)).2.1⟩

/-- C9: GET /case/caseId/status returns NotFound 404 for every caseId
different from the configured case identifier, and for the configured
identifier returns a snapshot whose available_tools field equals the
total number of tools of case-associated connectors. -/
theorem case_status_not_found_and_tool_count (st : GatewayState)
    (case_id : String) (h : case_id ≠ st.caseId) :
    (get_case_status st case_id).val = .error ⟨404, "Case not found"⟩ ∧
    ∃ resp : CaseStatusResponse,
      (get_case_status st st.caseId).val = .ok resp ∧
      resp.case_id = st.caseId ∧
      resp.available_tools =
        ((st.connectors.filter (fun p => p.2.caseSpecific)).map
          (fun p => p.2.tools.length)).sum := by
  constructor
  · unfold get_case_status
    rw [if_pos h]
  · unfold get_case_status
    rw [if_neg (by simp)]
    exact ⟨_, rfl, rfl, by simp [List.length_flatten, List.map_map,
      Function.comp_def]⟩

/-- C9 witness: the unknown case id nope against the default state; the
case-associated tool count there is the six legal_research tools. -/
theorem case_status_not_found_and_tool_count_witness :
    "nope" ≠ S0.caseId ∧
    (((get_case_status S0 "nope").val = .error ⟨404, "Case not found"⟩ ∧
      ∃ resp : CaseStatusResponse,
        (get_case_status S0 S0.caseId).val = .ok resp ∧
        resp.case_id = S0.caseId ∧
        resp.available_tools =
          ((S0.connectors.filter (fun p => p.2.caseSpecific)).map
            (fun p => p.2.tools.length)).sum) ∧
     ((S0.connectors.filter (fun p => p.2.caseSpecific)).map
       (fun p => p.2.tools.length)).sum = 6) :=
  ⟨by decide,
   case_status_not_found_and_tool_count S0 "nope" (by decide),
   by decide⟩

theorem foldl_tools_length (l : List (String × Connector)) (a : Nat) :
    l.foldl (fun acc p => acc + p.2.tools.length) a =
      a + (l.map (fun p => p.2.tools.length)).sum := by
  induction l generalizing a with
  | nil => simp
  | cons x xs ih => simp [ih, Nat.add_assoc]

/-- C10: for the same registry state, the total_tools field of GET
/connectors equals the total_tools field of GET /health, and equals the
sum of the per-connector tools_count entries the listing returns. -/
theorem list_health_total_tools_agree (st : GatewayState) (now : String) :
    (list_connectors st).val.total_tools =
      (health_check st now).val.total_tools ∧
    (list_connectors st).val.total_tools =
      ((list_connectors st).val.connectors.map
        (fun p => p.2.tools_count)).sum := by
  constructor
  · simp [list_connectors, health_check, foldl_tools_length]
  · simp [list_connectors, foldl_tools_length, List.map_map,
      Function.comp_def]

end Bridge
